import Mathlib

/-!
Verification development for the `pattern` texture-synthesis repository.

The pipeline's pixel arithmetic (`src/utils/textureRenderer.ts`,
`src/utils/textureGenerator.ts`, `src/unnamed/part_001`) runs on JavaScript
numbers; we embed it over `ℚ`, which reproduces every arithmetic step of the
source exactly (the source uses only `+ - * /`, `min`, `max`, `abs`, `%`,
`Math.round`, `Math.floor`-free code, and `Math.sqrt`, which we pass in as an
explicit function parameter).  Writes into a `Uint8ClampedArray` clamp to
`[0,255]` and round ties-to-even, which `clampU8` below models.
-/

/-- JavaScript truncating division used by the `%` operator: the quotient is
rounded toward zero. -/
def ratTrunc (q : ℚ) : ℤ :=
  if 0 ≤ q then ⌊q⌋ else -⌊-q⌋

/-- JavaScript remainder `a % b` (sign follows the dividend). -/
def jsMod (a b : ℚ) : ℚ :=
  a - b * ratTrunc (a / b)

/-- `Math.round`: round half toward positive infinity. -/
def jsRound (q : ℚ) : ℤ :=
  ⌊q + 1/2⌋

/-- Round to the nearest integer, ties to even — the rounding mode used when a
JavaScript number is stored into a `Uint8ClampedArray` element. -/
def roundHalfEven (q : ℚ) : ℤ :=
  let f := ⌊q⌋
  let r := q - f
  if r < 1/2 then f
  else if 1/2 < r then f + 1
  else if f % 2 = 0 then f else f + 1

/-- Storing a JavaScript number into a `Uint8ClampedArray` element: clamp to
`[0,255]`, then round ties-to-even. -/
def clampU8 (q : ℚ) : ℕ :=
  if q ≤ 0 then 0
  else if 255 ≤ q then 255
  else (roundHalfEven q).toNat

/-- One RGBA pixel of an `ImageData` buffer; channels are the stored bytes. -/
structure RGBA where
  r : ℕ
  g : ℕ
  b : ℕ
  a : ℕ
deriving DecidableEq, Repr

/-- `src/types/texture.ts`: `Pattern`. -/
structure Pattern where
  id : String
  name : String
  category : String
  svgUrl : String
  defaultRows : Option ℕ
  defaultColumns : Option ℕ
deriving DecidableEq, Repr

/-- `src/types/texture.ts`: `Material`. -/
structure Material where
  id : String
  name : String
  category : String
  imageUrl : String
  thumbnailUrl : Option String
deriving DecidableEq, Repr

/-- `src/types/texture.ts`: `PatternSettings` (rows/columns are integer counts;
width/height are millimetre measurements). -/
structure PatternSettings where
  rows : ℕ
  columns : ℕ
  width : ℚ
  height : ℚ
  angle : Option ℚ
deriving DecidableEq, Repr

/-- `src/types/texture.ts`: `MaterialSettings`. -/
structure MaterialSettings where
  width : ℚ
  height : ℚ
  tint : String
  edgeStyle : String
  toneVariation : ℚ
deriving DecidableEq, Repr

/-- `src/types/texture.ts`: `JointSettings`. -/
structure JointSettings where
  material : String
  tint : String
  horizontal : ℚ
  vertical : ℚ
  recess : Bool
  concave : Bool
deriving DecidableEq, Repr

/-- `src/types/texture.ts`: `Adjustments`. -/
structure Adjustments where
  brightness : ℚ
  contrast : ℚ
  hue : ℚ
  saturation : ℚ
  invert : Bool
deriving DecidableEq, Repr

/-- `src/types/texture.ts`: `TextureConfig`. -/
structure TextureConfig where
  pattern : Option Pattern
  material : Option Material
  patternSettings : PatternSettings
  materialSettings : MaterialSettings
  jointSettings : JointSettings
  adjustments : Adjustments
deriving DecidableEq, Repr

/-- `rgbToHsv` (identical in `textureRenderer.ts`, `textureGenerator.ts` and
`part_001`): convert an RGB triple (already adjusted, so the inputs are
JavaScript numbers, not bytes) to HSV. -/
def rgbToHsv (r0 g0 b0 : ℚ) : ℚ × ℚ × ℚ :=
  let r := r0 / 255
  let g := g0 / 255
  let b := b0 / 255
  let mx := max r (max g b)
  let mn := min r (min g b)
  let diff := mx - mn
  let h0 : ℚ :=
    if diff ≠ 0 then
      if mx = r then jsMod ((g - b) / diff) 6
      else if mx = g then (b - r) / diff + 2
      else (r - g) / diff + 4
    else 0
  let h := h0 / 6
  let s := if mx = 0 then 0 else diff / mx
  ⟨h, s, mx⟩

/-- `hsvToRgb` (identical in all three pipeline files): convert HSV back to an
RGB triple of integers via `Math.round`. -/
def hsvToRgb (h s v : ℚ) : ℚ × ℚ × ℚ :=
  let c := v * s
  let x := c * (1 - |jsMod (h * 6) 2 - 1|)
  let m := v - c
  let rgb : ℚ × ℚ × ℚ :=
    if h < 1/6 then ⟨c, x, 0⟩
    else if h < 2/6 then ⟨x, c, 0⟩
    else if h < 3/6 then ⟨0, c, x⟩
    else if h < 4/6 then ⟨0, x, c⟩
    else if h < 5/6 then ⟨x, 0, c⟩
    else ⟨c, 0, x⟩
  ⟨(jsRound ((rgb.1 + m) * 255) : ℚ),
   (jsRound ((rgb.2.1 + m) * 255) : ℚ),
   (jsRound ((rgb.2.2 + m) * 255) : ℚ)⟩

/-- Denominator of the contrast factor in `applyAdjustments`
(`textureRenderer.ts` line 680): `255 * (259 - contrast * 255)`.  The source
computes the quotient unconditionally — there is no guard around this
expression. -/
def contrastDenom (contrast : ℚ) : ℚ :=
  255 * (259 - contrast * 255)

/-- The contrast factor of `applyAdjustments`:
`(259 * (contrast * 255 + 255)) / (255 * (259 - contrast * 255))`. -/
def contrastFactor (contrast : ℚ) : ℚ :=
  (259 * (contrast * 255 + 255)) / contrastDenom contrast

/-- Body of the per-pixel loop of `applyAdjustments` (identical in
`textureRenderer.ts` 669–711, `textureGenerator.ts` 236–278 and `part_001`
278–320): brightness, contrast, optional hue rotation, saturation, optional
invert, then the final clamped store of R, G, B; the alpha byte `data[i+3]` is
never written. -/
def applyAdjustmentsPixel (adj : Adjustments) (p : RGBA) : RGBA :=
  let r0 : ℚ := p.r
  let g0 : ℚ := p.g
  let b0 : ℚ := p.b
  -- Brightness
  let r1 := min 255 (r0 * adj.brightness)
  let g1 := min 255 (g0 * adj.brightness)
  let b1 := min 255 (b0 * adj.brightness)
  -- Contrast
  let cf := contrastFactor adj.contrast
  let r2 := min 255 (max 0 (cf * (r1 - 128) + 128))
  let g2 := min 255 (max 0 (cf * (g1 - 128) + 128))
  let b2 := min 255 (max 0 (cf * (b1 - 128) + 128))
  -- Hue rotation
  let rgb3 : ℚ × ℚ × ℚ :=
    if adj.hue ≠ 0 then
      let hsv := rgbToHsv r2 g2 b2
      hsvToRgb (jsMod (hsv.1 + adj.hue / 360) 1) hsv.2.1 hsv.2.2
    else ⟨r2, g2, b2⟩
  -- Saturation
  let gray := 0.299 * rgb3.1 + 0.587 * rgb3.2.1 + 0.114 * rgb3.2.2
  let r4 := gray + (rgb3.1 - gray) * adj.saturation
  let g4 := gray + (rgb3.2.1 - gray) * adj.saturation
  let b4 := gray + (rgb3.2.2 - gray) * adj.saturation
  -- Invert
  let rgb5 : ℚ × ℚ × ℚ :=
    if adj.invert then ⟨255 - r4, 255 - g4, 255 - b4⟩ else ⟨r4, g4, b4⟩
  ⟨clampU8 rgb5.1, clampU8 rgb5.2.1, clampU8 rgb5.2.2, p.a⟩

/-- `applyAdjustments` over a whole raster: the loop maps the per-pixel body
over every RGBA quadruple of the image data. -/
def applyAdjustments (adj : Adjustments) (data : List RGBA) : List RGBA :=
  data.map (applyAdjustmentsPixel adj)

/-- Casting a byte value (≤ 255) into a `Uint8ClampedArray` slot stores it
unchanged. -/
theorem clampU8_natCast (n : ℕ) (h : n ≤ 255) : clampU8 (n : ℚ) = n := by
  have hfloor : ⌊(n : ℚ)⌋ = (n : ℤ) := Int.floor_natCast n
  have hz : (n:ℚ) - ((n:ℤ):ℚ) = 0 := by push_cast; ring
  simp only [clampU8, roundHalfEven, hfloor, hz]
  split_ifs with h1 h2 h3
  · have h0 : n = 0 := by exact_mod_cast le_antisymm h1 (Nat.cast_nonneg n)
    omega
  · have h255 : (255:ℕ) ≤ n := by exact_mod_cast h2
    omega
  · omega
  all_goals norm_num at h3

/-- C1 (counterexample): `applyAdjustments` at the claimed identity parameters
brightness=1, contrast=1, hue=0, saturation=1, invert=false is NOT the
identity: at contrast=1 the contrast factor is `259·510/(255·4) = 129.5`, so
the mid-gray pixel (100,100,100,255) is crushed to (0,0,0,255). -/
theorem applyAdjustments_not_identity_at_contrast_one :
    applyAdjustments ⟨1, 1, 0, 1, false⟩ [⟨100, 100, 100, 255⟩] ≠ [⟨100, 100, 100, 255⟩] := by
  norm_num [applyAdjustments, applyAdjustmentsPixel, contrastFactor, contrastDenom, clampU8,
    roundHalfEven, min_def, max_def]

/-- C1 (amended): the Adjustment Filter is the identity at brightness=1,
contrast=0 (the code's contrast parameter has its identity at 0, where the
contrast factor equals `259·255/(255·259) = 1`), hue=0, saturation=1,
invert=false: every pixel of every raster whose channels are valid bytes is
returned exactly. -/
theorem applyAdjustments_identity (data : List RGBA)
    (h : ∀ p ∈ data, p.r ≤ 255 ∧ p.g ≤ 255 ∧ p.b ≤ 255) :
    applyAdjustments ⟨1, 0, 0, 1, false⟩ data = data := by
  have hpix : ∀ p ∈ data, applyAdjustmentsPixel ⟨1, 0, 0, 1, false⟩ p = p := by
    intro p hp
    obtain ⟨hr, hg, hb⟩ := h p hp
    obtain ⟨r, g, b, a⟩ := p
    simp only [applyAdjustmentsPixel, contrastFactor, contrastDenom] at *
    norm_num
    have e1 : (255:ℚ) ⊓ (r:ℚ) = r := min_eq_right (by exact_mod_cast hr)
    have e2 : (255:ℚ) ⊓ (g:ℚ) = g := min_eq_right (by exact_mod_cast hg)
    have e3 : (255:ℚ) ⊓ (b:ℚ) = b := min_eq_right (by exact_mod_cast hb)
    rw [e1, e2, e3, clampU8_natCast r hr, clampU8_natCast g hg, clampU8_natCast b hb]
    exact ⟨rfl, rfl, rfl⟩
  calc applyAdjustments ⟨1, 0, 0, 1, false⟩ data
      = data.map id := List.map_congr_left hpix
    _ = data := List.map_id data

/-- Witness for the amended C1 theorem at a concrete raster. -/
theorem applyAdjustments_identity_witness :
    applyAdjustments ⟨1, 0, 0, 1, false⟩ [⟨10, 20, 30, 40⟩, ⟨0, 128, 255, 255⟩]
      = [⟨10, 20, 30, 40⟩, ⟨0, 128, 255, 255⟩] :=
  applyAdjustments_identity _ (by decide)

/-- C2: the contrast-factor denominator `255·(259 − contrast·255)` that
`applyAdjustments` computes unconditionally is exactly zero at
`contrast = 259/255`, which lies inside the nominal domain `[0, 2]`; the code
contains no guard, so this is a division by zero (Infinity in JavaScript). -/
theorem contrastDenom_zero_inside_domain :
    (0:ℚ) ≤ 259/255 ∧ (259:ℚ)/255 ≤ 2 ∧ contrastDenom (259/255) = 0 := by
  norm_num [contrastDenom]

/-- C9: the Adjustment Filter never writes the alpha byte: for every setting
of brightness, contrast, hue, saturation and invert and every raster, the
alpha channel of the output equals that of the input. -/
theorem applyAdjustments_preserves_alpha (adj : Adjustments) (data : List RGBA) :
    (applyAdjustments adj data).map RGBA.a = data.map RGBA.a := by
  simp only [applyAdjustments, List.map_map]
  exact List.map_congr_left fun p _ => rfl

/-!
## Canvas traces

The compositor stages drive a 2D canvas imperatively.  We embed a stage as the
list of drawing commands it issues (its trace): two runs produce the same
canvas exactly when they produce the same trace.  Rasterized inputs that the
browser resolves outside the stage (the stencil image, the material photo, the
pixels read back from an intermediate mask canvas) are passed in as explicit
parameters, mirroring the spec's "fixed resolved rasters".  The ambient
`Math.random` stream is passed to every stage as a `rand` parameter; a stage
that never samples it simply ignores it.
-/

/-- A drawing command issued against an intermediate mask canvas. -/
inductive MaskOp where
  | fill (style : String)
  | drawStencil (x y w h : ℚ)
deriving DecidableEq, Repr

/-- A drawing command issued against the output color canvas. -/
inductive ColorOp where
  | fillRect (style : String) (comp : String) (alpha : ℚ) (x y w h : ℚ)
  | strokeLine (style : String) (lineWidth : ℚ) (x1 y1 x2 y2 : ℚ)
  | drawStencil (comp : String) (alpha : ℚ) (x y w h : ℚ)
  | drawRaster (comp : String) (pixels : List RGBA) (x y w h : ℚ)
  | applyMask (comp : String) (maskOps : List MaskOp) (maskPixels : List RGBA)
deriving DecidableEq, Repr

/-- The doubly nested tiling loop shared by every stage
(`for (row = 0; row < rows; row++) for (col = 0; col < columns; col++)` with
`x = col * unitW`, `y = row * unitH`). -/
def tileLoop {α : Type} (rows columns : ℕ) (unitW unitH : ℚ) (draw : ℚ → ℚ → α) :
    List α :=
  (List.range rows).flatMap fun (row : ℕ) =>
    (List.range columns).map fun (col : ℕ) =>
      draw ((col : ℚ) * unitW) ((row : ℚ) * unitH)

/-- The stencil tiling pass of the color map compositor
(`textureRenderer.ts` 55–68 and 151–164, `part_001` 91–106,
`textureGenerator.ts` 156–173): one `drawImage(patternImg, x, y, unitW, unitH)`
per grid cell, where `unitW = outputWidth / columns` and
`unitH = outputHeight / rows`. -/
def stencilTileDraws (rows columns : ℕ) (outputWidth outputHeight : ℚ)
    (comp : String) (alpha : ℚ) : List ColorOp :=
  tileLoop rows columns (outputWidth / columns) (outputHeight / rows) fun x y =>
    ColorOp.drawStencil comp alpha x y (outputWidth / columns) (outputHeight / rows)

/-- The joint-band pass (`textureRenderer.ts` 172–196, identical in
`textureGenerator.ts` 191–218 and `part_001` 145–169): semi-transparent
(`globalAlpha = 0.8`) bands of the joint tint centred on each interior tile
boundary, whose pixel thickness converts the millimetre joint width against
the pattern's millimetre tile size. -/
def jointOps (js : JointSettings) (ps : PatternSettings)
    (outputWidth outputHeight unitW unitH : ℚ) : List ColorOp :=
  if 0 < js.horizontal ∨ 0 < js.vertical then
    (if 0 < js.horizontal then
      let jointHeight := js.horizontal / ps.height * unitH
      (List.range (ps.rows - 1)).map fun i =>
        ColorOp.fillRect js.tint "source-over" 0.8
          0 ((((i + 1 : ℕ)) : ℚ) * unitH - jointHeight / 2) outputWidth jointHeight
    else []) ++
    (if 0 < js.vertical then
      let jointWidth := js.vertical / ps.width * unitW
      (List.range (ps.columns - 1)).map fun i =>
        ColorOp.fillRect js.tint "source-over" 0.8
          ((((i + 1 : ℕ)) : ℚ) * unitW - jointWidth / 2) 0 jointWidth outputHeight
    else [])
  else []

/-- The placeholder grid drawn when the pattern stencil failed to load and no
material is selected (`textureRenderer.ts` 70–87). -/
def gridFallbackOps (rows columns : ℕ) (outputWidth outputHeight unitW unitH : ℚ) :
    List ColorOp :=
  ((List.range (rows - 1)).map fun i =>
    ColorOp.strokeLine "#cccccc" 2
      0 ((((i + 1 : ℕ)) : ℚ) * unitH) outputWidth ((((i + 1 : ℕ)) : ℚ) * unitH)) ++
  ((List.range (columns - 1)).map fun i =>
    ColorOp.strokeLine "#cccccc" 2
      ((((i + 1 : ℕ)) : ℚ) * unitW) 0 ((((i + 1 : ℕ)) : ℚ) * unitW) outputHeight)

/-- `createTextureCanvas` (`textureRenderer.ts` 10–199) as a canvas trace.
`patternImg` is the resolved stencil (`none` when loading failed),
`materialRaster` the resolved material photo pixels.  Faithful control flow:
a missing pattern throws `'Pattern is required'`; a missing material renders
the pattern-only placeholder; otherwise material, tint, stencil overlay
(multiply, alpha 0.4) and joints are layered in order. -/
def createTextureCanvas (config : TextureConfig) (patternImg : Option (List RGBA))
    (materialRaster : List RGBA) (rand : ℕ → ℚ) (outputWidth outputHeight : ℕ) :
    Except String (List ColorOp) :=
  match config.pattern with
  | none => .error "Pattern is required"
  | some _ =>
    let rows := config.patternSettings.rows
    let columns := config.patternSettings.columns
    let patternUnitWidth := (outputWidth : ℚ) / columns
    let patternUnitHeight := (outputHeight : ℚ) / rows
    match config.material with
    | none =>
      let patIn : List ColorOp :=
        match patternImg with
        | some _ => stencilTileDraws rows columns outputWidth outputHeight "source-over" 1
        | none => gridFallbackOps rows columns outputWidth outputHeight
            patternUnitWidth patternUnitHeight
      .ok (ColorOp.fillRect "#f5f5f5" "source-over" 1 0 0 outputWidth outputHeight ::
        patIn ++ jointOps config.jointSettings config.patternSettings
          outputWidth outputHeight patternUnitWidth patternUnitHeight)
    | some _ =>
      let adjusted := applyAdjustments config.adjustments materialRaster
      let tintOps : List ColorOp :=
        if config.materialSettings.tint ≠ "#FFFFFF" then
          [ColorOp.fillRect config.materialSettings.tint "multiply" 1
            0 0 outputWidth outputHeight]
        else []
      let patIn : List ColorOp :=
        match patternImg with
        | some _ => stencilTileDraws rows columns outputWidth outputHeight "multiply" 0.4
        | none => []
      .ok (ColorOp.fillRect "#f0f0f0" "source-over" 1 0 0 outputWidth outputHeight ::
        ColorOp.drawRaster "source-over" adjusted 0 0 outputWidth outputHeight ::
        tintOps ++ patIn ++ jointOps config.jointSettings config.patternSettings
          outputWidth outputHeight patternUnitWidth patternUnitHeight)

/-- The mask canvas built by the preview compositor
(`textureGenerator.ts` 143–180, `part_001` 77–106): fill white, then tile the
stencil. -/
def maskCanvasOps (rows columns : ℕ) (unitW unitH : ℚ) : List MaskOp :=
  MaskOp.fill "#ffffff" ::
    tileLoop rows columns unitW unitH fun x y => MaskOp.drawStencil x y unitW unitH

/-- `generateTexture` (`textureGenerator.ts` 3–219) as a canvas trace.  When
pattern or material is absent it returns after the background fill (the
placeholder).  `maskRaster` is the pixel readback of the tiled mask canvas. -/
def generateTexture (config : TextureConfig) (patternImg : Option (List RGBA))
    (materialRaster maskRaster : List RGBA) (rand : ℕ → ℚ)
    (previewWidth previewHeight : ℕ) : List ColorOp :=
  let base := ColorOp.fillRect "#f0f0f0" "source-over" 1 0 0 previewWidth previewHeight
  if config.pattern = none ∨ config.material = none then [base]
  else
    let rows := config.patternSettings.rows
    let columns := config.patternSettings.columns
    let patternWidth := (previewWidth : ℚ) / columns
    let patternHeight := (previewHeight : ℚ) / rows
    let adjusted := applyAdjustments config.adjustments materialRaster
    -- When tinting, the code pre-fills the tint and leaves the context in
    -- 'multiply' mode for the subsequent material draw.
    let tinted := config.materialSettings.tint ≠ "#FFFFFF"
    let tintOps : List ColorOp :=
      if tinted then
        [ColorOp.fillRect config.materialSettings.tint "source-over" 1
          0 0 previewWidth previewHeight]
      else []
    let matComp := if tinted then "multiply" else "source-over"
    let maskOps : List ColorOp :=
      match patternImg with
      | some _ => [ColorOp.applyMask "destination-in"
          (maskCanvasOps rows columns patternWidth patternHeight) maskRaster]
      | none => []
    base :: tintOps ++
      ColorOp.drawRaster matComp adjusted 0 0 previewWidth previewHeight ::
      maskOps ++ jointOps config.jointSettings config.patternSettings
        previewWidth previewHeight patternWidth patternHeight

/-!
## Mask thresholding (`part_001` 111–139)

After tiling the stencil over a white-filled mask canvas, the `part_001`
variant reads the pixels back and rewrites every alpha byte: a pixel is made
fully opaque ("visible") when its average brightness is below 128 or its alpha
is below 128, and fully transparent ("hidden") otherwise.  The mask is then
composited against the material with `destination-in`, whose output alpha is
the product of the two alphas.
-/

/-- The visibility test of the mask loop: `brightness < 128 || a < 128` with
`brightness = (r + g + b) / 3`. -/
def maskVisiblePixel (p : RGBA) : Bool :=
  ((p.r : ℚ) + p.g + p.b) / 3 < 128 ∨ p.a < 128

/-- One iteration of the mask-processing loop: write alpha 255 for a visible
pixel, alpha 0 for a hidden one. -/
def maskThresholdPixel (p : RGBA) : RGBA :=
  if maskVisiblePixel p then { p with a := 255 } else { p with a := 0 }

/-- The whole mask-processing loop over the mask raster. -/
def maskThreshold (mask : List RGBA) : List RGBA :=
  mask.map maskThresholdPixel

/-- `destination-in` compositing at one pixel, as used to gate the material
through the mask: the destination survives with alpha scaled by the source's
alpha (its colour channels are kept; the mask's colour is discarded). -/
def destinationIn (dst src : RGBA) : RGBA :=
  ⟨dst.r, dst.g, dst.b, clampU8 ((dst.a : ℚ) * src.a / 255)⟩

/-- Applying the processed mask to the material raster pixelwise. -/
def applyMaskPixels (material mask : List RGBA) : List RGBA :=
  List.zipWith destinationIn material mask

/-!
## Displacement map (`textureRenderer.ts` 229–347)
-/

/-- The non-white test of the displacement tile loop
(`textureRenderer.ts` 304): white means `r, g, b` all above 240, or alpha
below 10. -/
def isWhite (p : RGBA) : Bool :=
  (240 < p.r ∧ 240 < p.g ∧ 240 < p.b) ∨ p.a < 10

/-- Depth written for one stencil tile pixel (`textureRenderer.ts` 296–329):
white pixels keep the raised white background (255); a pattern pixel is
recessed by `255 * (1 - darkness * alphaWeight * 0.75)`, clamped, where
`darkness = 1 - luminance` and `alphaWeight = alpha / 255`.  (The tile
sub-regions of the displacement canvas are pairwise disjoint, so each tile
reads back the untouched white background.) -/
def depthPixel (p : RGBA) : ℕ :=
  if isWhite p then 255
  else
    let luminance := ((p.r : ℚ) * 0.299 + (p.g : ℚ) * 0.587 + (p.b : ℚ) * 0.114) / 255
    let darkness := 1 - luminance
    let alphaWeight := (p.a : ℚ) / 255
    let depthIntensity := darkness * alphaWeight
    let recessedDepth := 255 * (1 - depthIntensity * 0.75)
    clampU8 (max 0 (min 255 recessedDepth))

/-- `addNoiseToDisplacement` (`textureRenderer.ts` 538–555): one uniform
sample per pixel, offset `(rand - 0.5) * intensity * 255`, added to R, G and B
with clamping.  We record the per-pixel offsets the stage will add. -/
def noiseOffsets (rand : ℕ → ℚ) (count : ℕ) (intensity : ℚ) : List ℚ :=
  (List.range count).map fun i => (rand i - 0.5) * intensity * 255

/-- The displacement map as the full drawing recipe that determines its
pixels. -/
structure DispMap where
  background : String
  tilePuts : List (ℚ × ℚ × List ℕ)
  noise : List ℚ
deriving DecidableEq, Repr

/-- `createDisplacementMap` (`textureRenderer.ts` 229–347): white background;
for every grid cell, a `putImageData` of the depth-processed stencil tile at
`(col * unitW, row * unitH)`; then the noise pass at intensity 0.05.  The
function reads `pattern` (via the resolved `patternImg`) and
`patternSettings` only — `jointSettings` is destructured on line 234 but never
used: no joint-grid pass is drawn (line 262: "DO NOT add grid-based joint
depth"). -/
def createDisplacementMap (config : TextureConfig) (patternImg : Option (List RGBA))
    (rand : ℕ → ℚ) (outputWidth outputHeight : ℕ) : DispMap :=
  let rows := config.patternSettings.rows
  let columns := config.patternSettings.columns
  let patternUnitWidth := (outputWidth : ℚ) / columns
  let patternUnitHeight := (outputHeight : ℚ) / rows
  let tilePuts :=
    match patternImg with
    | none => []
    | some tile =>
      tileLoop rows columns patternUnitWidth patternUnitHeight fun x y =>
        (x, y, tile.map depthPixel)
  { background := "#ffffff"
    tilePuts := tilePuts
    noise := noiseOffsets rand (outputWidth * outputHeight) 0.05 }

/-!
## Normal map (`textureRenderer.ts` 352–417)

`Math.sqrt` is the one operation with no exact rational counterpart, so the
deriver takes the square-root function as an explicit parameter `s`; theorems
assume of `s` only facts true of `Math.sqrt` at the arguments actually used.
-/

/-- `getHeight` (`textureRenderer.ts` 378–383): sample the displacement data's
red byte at border-clamped coordinates, normalised to `[0,1]`. -/
def getHeight (data : ℕ → ℕ) (outputWidth outputHeight : ℕ) (px py : ℤ) : ℚ :=
  let clampedX := max 0 (min ((outputWidth : ℤ) - 1) px)
  let clampedY := max 0 (min ((outputHeight : ℤ) - 1) py)
  (data ((clampedY * outputWidth + clampedX) * 4).toNat : ℚ) / 255

/-- One pixel of the normal map (`textureRenderer.ts` 373–406): central
differences of the 4-neighbourhood, vector `(dx, dy, 1)` normalised by `s`,
remapped to bytes, alpha 255. -/
def normalPixel (s : ℚ → ℚ) (data : ℕ → ℕ) (outputWidth outputHeight : ℕ)
    (x y : ℕ) : RGBA :=
  let heightL := getHeight data outputWidth outputHeight ((x : ℤ) - 1) y
  let heightR := getHeight data outputWidth outputHeight ((x : ℤ) + 1) y
  let heightU := getHeight data outputWidth outputHeight x ((y : ℤ) - 1)
  let heightD := getHeight data outputWidth outputHeight x ((y : ℤ) + 1)
  let dx := (heightR - heightL) * 0.5
  let dy := (heightD - heightU) * 0.5
  let dz : ℚ := 1
  let length := s (dx * dx + dy * dy + dz * dz)
  let nx := dx / length * 0.5 + 0.5
  let ny := dy / length * 0.5 + 0.5
  let nz := dz / length * 0.5 + 0.5
  ⟨clampU8 (nx * 255), clampU8 (ny * 255), clampU8 (nz * 255), 255⟩

/-!
## Shared tiling lemmas
-/

/-- Predicate picking the stencil draw calls out of a canvas trace. -/
def isStencilDraw : ColorOp → Bool
  | ColorOp.drawStencil _ _ _ _ _ _ => true
  | _ => false

theorem tileLoop_length {α : Type} (rows columns : ℕ) (uw uh : ℚ) (draw : ℚ → ℚ → α) :
    (tileLoop rows columns uw uh draw).length = rows * columns := by
  simp only [tileLoop, List.length_flatMap, Function.comp_def, List.length_map,
    List.length_range, List.map_const', List.sum_replicate, smul_eq_mul]

theorem tileLoop_mem {α : Type} (rows columns : ℕ) (uw uh : ℚ) (draw : ℚ → ℚ → α)
    (op : α) :
    op ∈ tileLoop rows columns uw uh draw ↔
      ∃ row col : ℕ, row < rows ∧ col < columns ∧
        op = draw ((col : ℚ) * uw) ((row : ℚ) * uh) := by
  simp only [tileLoop, List.mem_flatMap, List.mem_map, List.mem_range]
  constructor
  · rintro ⟨row, hrow, col, hcol, rfl⟩
    exact ⟨row, col, hrow, hcol, rfl⟩
  · rintro ⟨row, col, hrow, hcol, rfl⟩
    exact ⟨row, hrow, col, hcol, rfl⟩

theorem jointOps_no_stencil (js : JointSettings) (ps : PatternSettings) (w h uw uh : ℚ) :
    ∀ op ∈ jointOps js ps w h uw uh, isStencilDraw op = false := by
  intro op hop
  simp only [jointOps] at hop
  split_ifs at hop
  all_goals
    simp only [List.mem_append, List.mem_map, List.mem_range, List.not_mem_nil,
      or_false, false_or] at hop
  all_goals
    first
      | exact hop.elim
      | (rcases hop with ⟨i, -, rfl⟩ | ⟨i, -, rfl⟩ <;> rfl)
      | (rcases hop with ⟨i, -, rfl⟩; rfl)

theorem stencilTileDraws_filter (rows columns : ℕ) (w h : ℚ) (comp : String) (alpha : ℚ) :
    (stencilTileDraws rows columns w h comp alpha).filter isStencilDraw =
      stencilTileDraws rows columns w h comp alpha := by
  rw [List.filter_eq_self]
  intro op hop
  rw [stencilTileDraws, tileLoop_mem] at hop
  obtain ⟨row, col, -, -, rfl⟩ := hop
  rfl

theorem filter_isStencilDraw_trace (t S J : List ColorOp)
    (ht : ∀ op ∈ t, isStencilDraw op = false)
    (hJ : ∀ op ∈ J, isStencilDraw op = false)
    (hS : S.filter isStencilDraw = S) :
    (t ++ S ++ J).filter isStencilDraw = S := by
  rw [List.filter_append, List.filter_append, hS,
    List.filter_eq_nil_iff.mpr (by simpa using ht),
    List.filter_eq_nil_iff.mpr (by simpa using hJ)]
  simp

/-- C3: for a TextureConfig with a pattern and a material selected and the
stencil resolved, the color map compositor emits exactly rows×columns stencil
draw calls, each scaled to `(w/columns, h/rows)` and placed at
`(col·w/columns, row·h/rows)` for `row < rows`, `col < columns` — and no other
operation of the trace draws the stencil. -/
theorem createTextureCanvas_tiling
    (config : TextureConfig) (tile materialRaster : List RGBA) (rand : ℕ → ℚ)
    (w h : ℕ) (pat : Pattern) (mat : Material)
    (hpat : config.pattern = some pat) (hmat : config.material = some mat)
    (hrows : 1 ≤ config.patternSettings.rows) (hcols : 1 ≤ config.patternSettings.columns) :
    ∃ ops, createTextureCanvas config (some tile) materialRaster rand w h = Except.ok ops
      ∧ ops.filter isStencilDraw =
          stencilTileDraws config.patternSettings.rows config.patternSettings.columns
            w h "multiply" 0.4
      ∧ (ops.filter isStencilDraw).length =
          config.patternSettings.rows * config.patternSettings.columns
      ∧ ∀ op, op ∈ ops.filter isStencilDraw ↔
          ∃ row col : ℕ, row < config.patternSettings.rows ∧
            col < config.patternSettings.columns ∧
            op = ColorOp.drawStencil "multiply" 0.4
                  ((col : ℚ) * ((w : ℚ) / config.patternSettings.columns))
                  ((row : ℚ) * ((h : ℚ) / config.patternSettings.rows))
                  ((w : ℚ) / config.patternSettings.columns)
                  ((h : ℚ) / config.patternSettings.rows) := by
  obtain ⟨op0, om0, ps, ms, js, adj⟩ := config
  change op0 = some pat at hpat
  change om0 = some mat at hmat
  subst hpat hmat
  refine ⟨_, rfl, ?_, ?_, ?_⟩
  all_goals
    rw [filter_isStencilDraw_trace _ _ _
      (by
        intro op hop
        simp only [List.mem_cons] at hop
        rcases hop with rfl | rfl | hop
        · rfl
        · rfl
        · split_ifs at hop
          · simp only [List.mem_singleton] at hop; subst hop; rfl
          · exact absurd hop (List.not_mem_nil _))
      (jointOps_no_stencil _ _ _ _ _ _)
      (stencilTileDraws_filter _ _ _ _ _ _)]
  · rw [stencilTileDraws, tileLoop_length]
  · intro op
    rw [stencilTileDraws, tileLoop_mem]

/-- A pattern and a material as shipped with the repository
(`src/unnamed/part_002` and the pattern catalogue). -/
def samplePattern : Pattern :=
  ⟨"brick", "Brick", "Brick Bond", "/api/pattern?id=brick", none, none⟩

def sampleMaterial : Material :=
  ⟨"granite-1", "Granite", "Stone", "https://picsum.photos/seed/granite-1/800/800", none⟩

def samplePS : PatternSettings := ⟨2, 3, 400, 100, none⟩

def sampleMS : MaterialSettings := ⟨400, 100, "#FFFFFF", "None", 0⟩

def sampleJS : JointSettings := ⟨"mortar", "#888888", 10, 10, false, false⟩

def sampleAdj : Adjustments := ⟨1, 1, 0, 1, false⟩

def sampleConfig : TextureConfig :=
  ⟨some samplePattern, some sampleMaterial, samplePS, sampleMS, sampleJS, sampleAdj⟩

/-- Witness for C3 at a concrete 2×3 configuration. -/
theorem createTextureCanvas_tiling_witness :
    ∃ ops, createTextureCanvas sampleConfig (some [⟨0, 0, 0, 255⟩]) [⟨80, 90, 100, 255⟩]
        (fun _ => 0) 2048 2048 = Except.ok ops
      ∧ ops.filter isStencilDraw =
          stencilTileDraws sampleConfig.patternSettings.rows
            sampleConfig.patternSettings.columns 2048 2048 "multiply" 0.4
      ∧ (ops.filter isStencilDraw).length =
          sampleConfig.patternSettings.rows * sampleConfig.patternSettings.columns
      ∧ ∀ op, op ∈ ops.filter isStencilDraw ↔
          ∃ row col : ℕ, row < sampleConfig.patternSettings.rows ∧
            col < sampleConfig.patternSettings.columns ∧
            op = ColorOp.drawStencil "multiply" 0.4
                  ((col : ℚ) * (((2048 : ℕ) : ℚ) / sampleConfig.patternSettings.columns))
                  ((row : ℚ) * (((2048 : ℕ) : ℚ) / sampleConfig.patternSettings.rows))
                  (((2048 : ℕ) : ℚ) / sampleConfig.patternSettings.columns)
                  (((2048 : ℕ) : ℚ) / sampleConfig.patternSettings.rows) :=
  createTextureCanvas_tiling sampleConfig [⟨0, 0, 0, 255⟩] [⟨80, 90, 100, 255⟩]
    (fun _ => 0) 2048 2048 samplePattern sampleMaterial rfl rfl (by decide) (by decide)

/-- C4: the `part_001` compositor has no zero-visible-pixels fallback.  For a
stencil that rasterizes with zero dark (below-threshold) pixels — here the
tiled mask canvas reads back as all-white opaque pixels, none of which passes
the visibility test — the mask-processing loop writes alpha 0 at every pixel,
and the `destination-in` composite then hides the material completely
(0% coverage, a blank material), not 100% as the spec's safety fallback
requires. -/
theorem mask_zero_dark_pixels_hides_material :
    (∀ p ∈ List.replicate 4 (⟨255, 255, 255, 255⟩ : RGBA), maskVisiblePixel p = false) ∧
    (maskThreshold (List.replicate 4 ⟨255, 255, 255, 255⟩)).map RGBA.a = List.replicate 4 0 ∧
    (applyMaskPixels (List.replicate 4 ⟨10, 20, 30, 255⟩)
        (maskThreshold (List.replicate 4 ⟨255, 255, 255, 255⟩))).map RGBA.a =
      List.replicate 4 0 := by
  have hvis : maskVisiblePixel ⟨255, 255, 255, 255⟩ = false := by
    simp only [maskVisiblePixel]
    norm_num
  have hpix : maskThresholdPixel ⟨255, 255, 255, 255⟩ = ⟨255, 255, 255, 0⟩ := by
    rw [maskThresholdPixel, if_neg (by rw [hvis]; exact Bool.false_ne_true)]
  have hdest : destinationIn ⟨10, 20, 30, 255⟩ ⟨255, 255, 255, 0⟩ = ⟨10, 20, 30, 0⟩ := by
    rw [destinationIn]
    norm_num [clampU8]
  refine ⟨?_, ?_, ?_⟩
  · intro p hp
    rw [List.eq_of_mem_replicate hp, hvis]
  · rw [maskThreshold, List.map_replicate, hpix, List.map_replicate]
  · rw [maskThreshold, List.map_replicate, hpix, applyMaskPixels]
    simp only [List.replicate, List.zipWith_cons_cons, List.zipWith_nil_right, hdest]
    rfl

/-- C5 (counterexample): a rendering pass with the Pattern absent does NOT
degrade gracefully — `createTextureCanvas` fails with the exception
`'Pattern is required'` (`textureRenderer.ts` 17–19). -/
theorem createTextureCanvas_fails_without_pattern :
    createTextureCanvas ⟨none, some sampleMaterial, samplePS, sampleMS, sampleJS, sampleAdj⟩
      none [] (fun _ => 0) 2048 2048 = Except.error "Pattern is required" := rfl

/-- C5 (amended): with a Pattern selected but the Material absent,
`createTextureCanvas` completes with the placeholder rendering (light
background, pattern/grid, joints); and the preview pass `generateTexture`
completes with the background placeholder, without failing, whenever the
Pattern or the Material is absent.  Only `createTextureCanvas` with an absent
Pattern fails. -/
theorem renderer_graceful (config : TextureConfig) (patternImg : Option (List RGBA))
    (materialRaster maskRaster : List RGBA) (rand : ℕ → ℚ) (w h : ℕ) :
    (config.material = none → config.pattern ≠ none →
      ∃ ops, createTextureCanvas config patternImg materialRaster rand w h =
        Except.ok (ColorOp.fillRect "#f5f5f5" "source-over" 1 0 0 w h :: ops)) ∧
    (config.pattern = none ∨ config.material = none →
      generateTexture config patternImg materialRaster maskRaster rand w h =
        [ColorOp.fillRect "#f0f0f0" "source-over" 1 0 0 w h]) := by
  constructor
  · intro hm hp
    obtain ⟨p0, m0, ps, ms, js, adj⟩ := config
    change m0 = none at hm
    subst hm
    rcases p0 with _ | pat
    · exact absurd rfl hp
    · exact ⟨_, rfl⟩
  · intro hpm
    rw [generateTexture, if_pos hpm]

/-- The sample configuration with the material deselected. -/
def sampleConfigNoMaterial : TextureConfig :=
  ⟨some samplePattern, none, samplePS, sampleMS, sampleJS, sampleAdj⟩

/-- Witness for the amended C5 theorem. -/
theorem renderer_graceful_witness :
    (∃ ops, createTextureCanvas sampleConfigNoMaterial none [] (fun _ => 0) 64 64 =
        Except.ok (ColorOp.fillRect "#f5f5f5" "source-over" 1 0 0 64 64 :: ops)) ∧
    generateTexture sampleConfigNoMaterial none [] [] (fun _ => 0) 64 64 =
      [ColorOp.fillRect "#f0f0f0" "source-over" 1 0 0 64 64] :=
  ⟨(renderer_graceful sampleConfigNoMaterial none [] [] (fun _ => 0) 64 64).1 rfl
      (Option.some_ne_none _),
   (renderer_graceful sampleConfigNoMaterial none [] [] (fun _ => 0) 64 64).2 (Or.inr rfl)⟩

/-- C7: the Displacement Map Builder draws no joint-grid pass.  Two
configurations sharing pattern, pattern settings, the resolved stencil tile,
the output size and the noise stream — but with arbitrary, possibly different
`jointSettings` — produce identical displacement maps. -/
theorem createDisplacementMap_ignores_jointSettings
    (cfg1 cfg2 : TextureConfig) (patternImg : Option (List RGBA)) (rand : ℕ → ℚ)
    (w h : ℕ) (hpat : cfg1.pattern = cfg2.pattern)
    (hps : cfg1.patternSettings = cfg2.patternSettings) :
    createDisplacementMap cfg1 patternImg rand w h =
      createDisplacementMap cfg2 patternImg rand w h := by
  simp only [createDisplacementMap, hps]

/-- The sample configuration with joints turned off (0 mm), all else equal. -/
def sampleConfigNoJoints : TextureConfig :=
  ⟨some samplePattern, some sampleMaterial, samplePS, sampleMS,
    ⟨"mortar", "#888888", 0, 0, false, false⟩, sampleAdj⟩

/-- Witness for C7: 10 mm joints versus no joints, same everything else. -/
theorem createDisplacementMap_ignores_jointSettings_witness :
    createDisplacementMap sampleConfig (some [⟨0, 0, 0, 255⟩]) (fun _ => 1/2) 4 4 =
      createDisplacementMap sampleConfigNoJoints (some [⟨0, 0, 0, 255⟩]) (fun _ => 1/2) 4 4 :=
  createDisplacementMap_ignores_jointSettings sampleConfig sampleConfigNoJoints
    (some [⟨0, 0, 0, 255⟩]) (fun _ => 1/2) 4 4 rfl rfl

/-- C8: the color map compositor is deterministic — its trace does not depend
on the ambient random stream, for both the export compositor
(`createTextureCanvas`) and the preview compositor (`generateTexture`), at
every configuration and all fixed resolved rasters. -/
theorem compositor_deterministic (config : TextureConfig) (patternImg : Option (List RGBA))
    (materialRaster maskRaster : List RGBA) (w h : ℕ) (rand1 rand2 : ℕ → ℚ) :
    createTextureCanvas config patternImg materialRaster rand1 w h =
      createTextureCanvas config patternImg materialRaster rand2 w h ∧
    generateTexture config patternImg materialRaster maskRaster rand1 w h =
      generateTexture config patternImg materialRaster maskRaster rand2 w h :=
  ⟨rfl, rfl⟩

/-- Any value at least 127.5 stored into a `Uint8ClampedArray` slot reads back
as at least 128 (ties round to the even value 128). -/
theorem le_clampU8_of_half (q : ℚ) (hq : 255/2 ≤ q) : 128 ≤ clampU8 q := by
  have h0 : ¬ q ≤ 0 := by linarith
  rw [clampU8, if_neg h0]
  by_cases h1 : 255 ≤ q
  · rw [if_pos h1]
    norm_num
  · rw [if_neg h1]
    have hfl : (⌊q⌋ : ℚ) ≤ q := Int.floor_le q
    have hfu : q < ⌊q⌋ + 1 := Int.lt_floor_add_one q
    simp only [roundHalfEven]
    split_ifs with ha hb hc
    · have hlt : (127 : ℚ) < (⌊q⌋ : ℚ) := by linarith
      have hlt2 : (127 : ℤ) < ⌊q⌋ := by exact_mod_cast hlt
      omega
    · have hlt : (126 : ℚ) < (⌊q⌋ : ℚ) := by linarith
      have hlt2 : (126 : ℤ) < ⌊q⌋ := by exact_mod_cast hlt
      omega
    · have hq2 : q - ⌊q⌋ = 1/2 := le_antisymm (not_lt.mp hb) (not_lt.mp ha)
      have hle : (127 : ℚ) ≤ (⌊q⌋ : ℚ) := by linarith
      have hle2 : (127 : ℤ) ≤ ⌊q⌋ := by exact_mod_cast hle
      omega
    · have hq2 : q - ⌊q⌋ = 1/2 := le_antisymm (not_lt.mp hb) (not_lt.mp ha)
      have hle : (127 : ℚ) ≤ (⌊q⌋ : ℚ) := by linarith
      have hle2 : (127 : ℤ) ≤ ⌊q⌋ := by exact_mod_cast hle
      omega

/-- C6: on a perfectly flat heightfield (every displacement byte 255) the
Normal Map Deriver writes the flat-up normal `(128, 128, 255, 255)` at every
interior pixel (the central differences vanish, the gradient vector is
`(0, 0, 1)` of length `√1 = 1`, and `127.5` rounds to 128 in the clamped
store). -/
theorem normalMap_flat_heightfield (s : ℚ → ℚ) (data : ℕ → ℕ) (w h x y : ℕ)
    (hs : s 1 = 1) (hdata : ∀ i, data i = 255)
    (hx0 : 0 < x) (hx1 : x + 1 < w) (hy0 : 0 < y) (hy1 : y + 1 < h) :
    normalPixel s data w h x y = ⟨128, 128, 255, 255⟩ := by
  simp only [normalPixel, getHeight, hdata]
  norm_num
  rw [hs]
  refine ⟨?_, ?_⟩
  · norm_num [clampU8, roundHalfEven]
    decide
  · norm_num [clampU8]

/-- Witness for C6 on a 3×3 all-white heightfield at the interior pixel
(1, 1), with the square root pinned to its exact value at 1. -/
theorem normalMap_flat_heightfield_witness :
    normalPixel (fun _ => 1) (fun _ => 255) 3 3 1 1 = ⟨128, 128, 255, 255⟩ :=
  normalMap_flat_heightfield (fun _ => 1) (fun _ => 255) 3 3 1 1 rfl (fun _ => rfl)
    (by decide) (by decide) (by decide) (by decide)

/-- C10: with the gradient vector's z-component fixed at 1 before
normalization, every pixel the Normal Map Deriver emits has blue channel at
least 128, for every heightfield and every square-root function that is
positive on arguments ≥ 1 (as `Math.sqrt` is). -/
theorem normalMap_blue_never_below_128 (s : ℚ → ℚ) (data : ℕ → ℕ) (w h x y : ℕ)
    (hs : ∀ q, 1 ≤ q → 0 < s q) :
    128 ≤ (normalPixel s data w h x y).b := by
  simp only [normalPixel]
  apply le_clampU8_of_half
  set dx := (getHeight data w h ((x:ℤ) + 1) y - getHeight data w h ((x:ℤ) - 1) y) * 0.5
    with hdx
  set dy := (getHeight data w h x ((y:ℤ) + 1) - getHeight data w h x ((y:ℤ) - 1)) * 0.5
    with hdy
  have hA : 1 ≤ dx * dx + dy * dy + 1 * 1 := by
    nlinarith [mul_self_nonneg dx, mul_self_nonneg dy]
  have hpos : 0 < s (dx * dx + dy * dy + 1 * 1) := hs _ hA
  have ht : 0 < 1 / s (dx * dx + dy * dy + 1 * 1) := by positivity
  nlinarith [ht]

/-- Witness for C10 at a concrete black heightfield. -/
theorem normalMap_blue_never_below_128_witness :
    128 ≤ (normalPixel (fun _ => 1) (fun _ => 0) 2 2 0 0).b :=
  normalMap_blue_never_below_128 (fun _ => 1) (fun _ => 0) 2 2 0 0
    (fun _ _ => (one_pos : (0:ℚ) < 1))
